import Mathlib

/-!
# Verification of the ai-transcriber client core

A shallow embedding of the client-side audio streaming and session-protocol
core (`clientApp/src/composables/useAudioRecorder.ts`,
`clientApp/src/composables/useWebSocket.ts`,
`clientApp/src/components/RecordingInterface.vue`), together with theorems
settling the specification's claims about it.

Modelling conventions:
* JS numbers (audio samples, time offsets) are embedded as `ℚ`.
* Refs/mutable state become fields of explicit state records; each handler
  or user action is a pure function `state → state × sent messages`.
* Object identity of JS objects (`===` on segment objects in
  `RecordingInterface.vue`) is embedded by pairing the field data with an
  address (`Nat`): two objects are `===`-equal iff the pairs are equal,
  and distinct allocations get distinct addresses.
* Asynchronous success/failure of `connect()` and `startRecording()`
  (device acquisition) is passed in as a boolean outcome parameter; the
  100 ms settle delay is elided (the sequence is modelled atomically).
-/

/-- JS `Math.round`: round half toward positive infinity. -/
def jsRound (x : ℚ) : ℤ := ⌊x + 1/2⌋

/-- JS `Math.abs` on rationals. -/
def mathAbs (x : ℚ) : ℚ := if x < 0 then -x else x

/-- JS `Math.max` on rationals. -/
def mathMaxQ (a b : ℚ) : ℚ := if a < b then b else a

/-- JS `Math.max` on integers. -/
def mathMaxZ (a b : ℤ) : ℤ := if a < b then b else a

/-- JS `Math.min` on integers. -/
def mathMinZ (a b : ℤ) : ℤ := if a < b then a else b

/-! ## Audio capture pipeline (`useAudioRecorder.ts`) -/

/-- `BUFFER_SIZE` from `useAudioRecorder.ts` (fixed frame size, samples). -/
def BUFFER_SIZE : Nat := 8192

/-- `MIN_AMPLITUDE` from `useAudioRecorder.ts` (noise-gate threshold). -/
def MIN_AMPLITUDE : ℚ := 1/100

/-- The `maxAmplitude` loop of `processor.onaudioprocess`: maximum absolute
sample amplitude over a raw window, starting from 0. -/
def maxAmplitude (w : List ℚ) : ℚ := w.foldl (fun m x => mathMaxQ m (mathAbs x)) 0

/-- Float-to-int16 conversion of one normalized sample:
`Math.max(-32768, Math.min(32767, Math.round(x * 32768)))`. -/
def toInt16 (x : ℚ) : ℤ := mathMaxZ (-32768) (mathMinZ 32767 (jsRound (x * 32768)))

/-- Accumulation step of `onaudioprocess` after normalization: append the
normalized samples at `bufferPosition`; writes past the end of the fixed
`Float32Array` are discarded; when the position reaches `BUFFER_SIZE`, the
first `BUFFER_SIZE` samples are converted to int16 and emitted, and the
buffer is reset. State is the accumulated prefix (`bufferPosition` is its
length); the second component is the list of emitted pcm frames. -/
def normAppend (buffer normalized : List ℚ) : List ℚ × List (List ℤ) :=
  if BUFFER_SIZE ≤ buffer.length + normalized.length then
    ([], [((buffer ++ normalized).take BUFFER_SIZE).map toInt16])
  else (buffer ++ normalized, [])

/-- One `processor.onaudioprocess` callback on a raw input window: compute
the window's max amplitude; if it does not exceed `MIN_AMPLITUDE` the window
is discarded (buffer untouched, nothing emitted); otherwise every sample is
scaled by `1 / maxAmplitude` (the source guards division by zero with a
`maxAmplitude > 0` conditional) and accumulated. -/
def processWindow (buffer input : List ℚ) : List ℚ × List (List ℤ) :=
  if MIN_AMPLITUDE < maxAmplitude input then
    normAppend buffer
      (input.map (fun s =>
        s * (if 0 < maxAmplitude input then 1 / maxAmplitude input else 1)))
  else (buffer, [])

/-! ## Protocol messages (`useWebSocket.ts`) -/

/-- `TranscriptionSegment` from `useWebSocket.ts`. -/
structure TranscriptionSegment where
  text : String
  speaker : String
  start : ℚ
  stop : ℚ
  absolute_start : ℚ
  absolute_end : ℚ
deriving DecidableEq

/-- `WebSocketMessage` from `useWebSocket.ts`: a `type` discriminator plus
optional payload fields. -/
structure WebSocketMessage where
  type : String
  text : Option String := none
  session_id : Option String := none
  segments : Option (List TranscriptionSegment) := none
  audio : Option String := none
  start_time : Option ℚ := none
  end_time : Option ℚ := none
  error : Option String := none
  status : Option String := none
deriving DecidableEq

/-- A transcription group as pushed onto `transcriptions` in
`RecordingInterface.vue` (the constant `type: 'transcription'`,
`duration: 0`, and the wall-clock `timestamp: Date.now()` are omitted from
the model). -/
structure TranscriptionWithSession where
  text : String
  segments : List TranscriptionSegment
  session_id : String
deriving DecidableEq

/-- JS truthiness of an optional string field: present and non-empty. -/
def truthy : Option String → Bool
  | none => false
  | some s => s != ""

/-- JS `||` on two nullable strings (empty string is falsy). -/
def jsOr (a b : Option String) : Option String :=
  match a with
  | some s => if s = "" then b else some s
  | none => b

/-- JS `String.prototype.includes` on character lists: `pat` occurs as a
contiguous substring of `s`. -/
def listIncludes (pat : List Char) : List Char → Bool
  | [] => pat.isEmpty
  | c :: rest => pat.isPrefixOf (c :: rest) || listIncludes pat rest

/-- JS `s.includes(pat)`. -/
def strIncludes (s pat : String) : Bool := listIncludes pat.toList s.toList

/-- The substring the `error` handler in `RecordingInterface.vue` pattern
matches to detect server-side session invalidation. -/
def NO_SESSION_TEXT : String := "No active recording session"

/-- WebSocket ready states (the `WebSocket.OPEN` etc. constants). -/
inductive WsReadyState where
  | CONNECTING
  | OPEN
  | CLOSING
  | CLOSED
deriving DecidableEq

/-- A segment object as handled by `playSegment` / `isPlayingSegment`:
field data plus an allocation address, so that `===` (modelled by equality
of the pair) is object identity, not structural equality of the fields. -/
def SegObj : Type := Nat × TranscriptionSegment

instance : DecidableEq SegObj := instDecidableEqProd

/-! ## Combined application state -/

/-- The mutable state of the client core: the refs of `useWebSocket`
(`isConnected`, `error` as `wsError`, the underlying socket's ready state),
of `useAudioRecorder` (`isRecording`, the device/processing resources,
`error` as `recorderError`), and of `RecordingInterface.vue`
(`isRecordingSessionActive`, the user-visible `error` slot, the
`transcriptions` history, `currentPlayingSegment`, and the `<audio>`
element's paused flag / position / source). -/
structure AppState where
  isConnected : Bool
  ws : Option WsReadyState
  wsError : Option String
  isRecording : Bool
  processorLive : Bool
  audioContextLive : Bool
  audioStreamLive : Bool
  recorderError : Option String
  isRecordingSessionActive : Bool
  errorSlot : Option String
  transcriptions : List TranscriptionWithSession
  currentPlayingSegment : Option SegObj
  playerPaused : Bool
  playerTime : ℚ
  playerSrc : Option String
deriving DecidableEq

/-- State immediately after construction of the components. -/
def initState : AppState :=
  { isConnected := false, ws := none, wsError := none,
    isRecording := false, processorLive := false, audioContextLive := false,
    audioStreamLive := false, recorderError := none,
    isRecordingSessionActive := false, errorSlot := none,
    transcriptions := [], currentPlayingSegment := none,
    playerPaused := true, playerTime := 0, playerSrc := none }

/-- The `watch([recorderError, wsError])` in `RecordingInterface.vue`:
`error.value = newRecorderError || newWsError`. Applied after every write
to either composable error ref. -/
def refreshError (st : AppState) : AppState :=
  { st with errorSlot := jsOr st.recorderError st.wsError }

/-- `sendMessage` of `useWebSocket.ts`: if the socket is absent or not
`OPEN`, record the error and send nothing (never queue); otherwise send. -/
def sendMessage (st : AppState) (m : WebSocketMessage) :
    AppState × List WebSocketMessage :=
  if st.ws = some WsReadyState.OPEN then (st, [m])
  else (refreshError { st with wsError := some "WebSocket is not connected" }, [])

/-- `cleanup` of `useAudioRecorder.ts`: disconnect the processor, close the
audio context, stop the stream tracks, drop the buffer, clear the
recording flag. -/
def cleanup (st : AppState) : AppState :=
  { st with processorLive := false, audioContextLive := false,
            audioStreamLive := false, isRecording := false }

/-- Successful `connect()` of `useWebSocket.ts` (`ws.onopen` fired):
socket open, `isConnected` set, ws error cleared. -/
def connectSuccess (st : AppState) : AppState :=
  refreshError { st with ws := some WsReadyState.OPEN, isConnected := true,
                         wsError := none }

/-- Successful `startRecording()` of `useAudioRecorder.ts`: `cleanup()`
first, then acquire the stream, context and processor, set `isRecording`,
clear the recorder error. -/
def armSuccess (st : AppState) : AppState :=
  let st1 := cleanup st
  refreshError { st1 with processorLive := true, audioContextLive := true,
                          audioStreamLive := true, isRecording := true,
                          recorderError := none }

/-- `{ type: 'status', status: 'start_recording' }` sent by
`useWebSocket.startRecording`. -/
def statusStartMsg : WebSocketMessage :=
  { type := "status", status := some "start_recording" }

/-- `{ type: 'status', status: 'stop_recording' }` sent by
`useWebSocket.stopRecording`. -/
def statusStopMsg : WebSocketMessage :=
  { type := "status", status := some "stop_recording" }

/-- `{ type: 'start_recording' }` sent by `toggleRecording`. -/
def startRecordingMsg : WebSocketMessage := { type := "start_recording" }

/-- The stop/abort path shared by the stop branch of `toggleRecording` and
its `catch` handler: `stopAudioRecording()` (= `cleanup`), then
`stopWebSocketRecording()` (sends `statusStopMsg` only while
`isConnected`), then `isRecordingSessionActive = false`. -/
def abortToIdle (st : AppState) : AppState × List WebSocketMessage :=
  let st1 := cleanup st
  let r := if st1.isConnected then sendMessage st1 statusStopMsg else (st1, [])
  ({ r.1 with isRecordingSessionActive := false }, r.2)

/-- The start branch of `toggleRecording`, with the outcomes of the two
awaited operations passed in: `connectOk` — whether `connect()` resolves
(ignored when already connected), `armOk` — whether `startRecording()`
resolves. On success: `startWebSocketRecording()` (connect if needed, then
send `statusStartMsg`), send `startRecordingMsg`, settle delay, arm, set
`isRecordingSessionActive`. Any rejection runs the `catch` handler: set the
error slot, disarm, best-effort stop message, flag false. The concrete
exception texts come from the runtime; they are modelled by fixed strings. -/
def startSequence (st : AppState) (connectOk armOk : Bool) :
    AppState × List WebSocketMessage :=
  if st.isConnected = false ∧ connectOk = false then
    let stE := refreshError { st with wsError := some "WebSocket connection error" }
    abortToIdle { stE with errorSlot := some "WebSocket connection error" }
  else
    let st1 := if st.isConnected then st else connectSuccess st
    let r1 := sendMessage st1 statusStartMsg
    let r2 := sendMessage r1.1 startRecordingMsg
    if armOk then
      ({ armSuccess r2.1 with isRecordingSessionActive := true }, r1.2 ++ r2.2)
    else
      let stE := cleanup (refreshError
        { r2.1 with recorderError := some "Failed to start recording" })
      let r3 := abortToIdle { stE with errorSlot := some "Failed to start recording" }
      (r3.1, r1.2 ++ r2.2 ++ r3.2)

/-- `toggleRecording` of `RecordingInterface.vue`. -/
def toggleRecording (st : AppState) (connectOk armOk : Bool) :
    AppState × List WebSocketMessage :=
  if st.isRecording then abortToIdle st else startSequence st connectOk armOk

/-- The audio-data callback installed in `onMounted`: forward the frame as
an `audio_data` message only when connected, the microphone is armed, the
recording session is active, and the chunk tag matches; otherwise do
nothing at all. -/
def audioDataCallback (st : AppState) (ty data : String) :
    AppState × List WebSocketMessage :=
  if st.isConnected = true ∧ st.isRecording = true ∧
     st.isRecordingSessionActive = true ∧ ty = "chunk" then
    sendMessage st { type := "audio_data", audio := some data }
  else (st, [])

/-- `stopPlayback` of `RecordingInterface.vue`: pause the player, reset its
position, clear the active playback target. -/
def stopPlayback (st : AppState) : AppState :=
  { st with playerPaused := true, playerTime := 0,
            currentPlayingSegment := none }

/-- `playSegment` of `RecordingInterface.vue`: if the clicked segment object
is (`===`) the current playback target, cancel playback; otherwise make it
the target and request its absolute time range with a `play_audio`
message. -/
def playSegment (st : AppState) (sessionId : String) (seg : SegObj) :
    AppState × List WebSocketMessage :=
  if st.currentPlayingSegment = some seg then
    (stopPlayback st, [])
  else
    sendMessage { st with currentPlayingSegment := some seg }
      { type := "play_audio", session_id := some sessionId,
        start_time := some seg.2.absolute_start,
        end_time := some seg.2.absolute_end }

/-- `isPlayingSegment` of `RecordingInterface.vue`. -/
def isPlayingSegment (st : AppState) (seg : SegObj) : Bool :=
  st.currentPlayingSegment = some seg

/-- `onPlaybackEnded` (the `@ended` handler). -/
def onPlaybackEnded (st : AppState) : AppState :=
  { st with currentPlayingSegment := none }

/-- `ws.onclose` of `useWebSocket.ts`: clear `isConnected`, drop the
socket. Nothing else is touched. -/
def wsOnClose (st : AppState) : AppState :=
  { st with isConnected := false, ws := none }

/-- The `watch(lastMessage)` handler of `RecordingInterface.vue`, one
inbound message at a time. The `audio_segment` branch models blob decoding
and `play()` as succeeding (their failure paths call `stopPlayback`). -/
def handleMessage (st : AppState) (m : WebSocketMessage) :
    AppState × List WebSocketMessage :=
  if m.type = "transcription" then
    if truthy m.text && truthy m.session_id then
      ({ st with transcriptions := st.transcriptions ++
          [{ text := m.text.getD "", segments := m.segments.getD [],
             session_id := m.session_id.getD "" }] }, [])
    else (st, [])
  else if m.type = "audio_segment" then
    if truthy m.audio then
      ({ st with playerSrc := some (m.audio.getD ""), playerPaused := false }, [])
    else
      ({ st with errorSlot := some "Missing audio data or player element" }, [])
  else if m.type = "error" then
    ({ st with
        errorSlot := some (match m.error with
          | some e => if e = "" then "Unknown error occurred" else e
          | none => "Unknown error occurred"),
        isRecordingSessionActive := (match m.error with
          | some e => if strIncludes e NO_SESSION_TEXT then false
                      else st.isRecordingSessionActive
          | none => st.isRecordingSessionActive) }, [])
  else if m.type = "status" then
    if m.status = some "recording_started" then
      ({ st with isRecordingSessionActive := true }, [])
    else if m.status = some "recording_stopped" then
      ({ st with isRecordingSessionActive := false }, [])
    else (st, [])
  else (st, [])

/-- The events that drive the client core. -/
inductive Event where
  | toggle (connectOk armOk : Bool)
  | inbound (m : WebSocketMessage)
  | wsClose
  | audioData (ty data : String)
  | play (sessionId : String) (seg : SegObj)
  | stopPlay
  | ended

/-- One event step (state component only). -/
def step (st : AppState) (ev : Event) : AppState :=
  match ev with
  | .toggle c a => (toggleRecording st c a).1
  | .inbound m => (handleMessage st m).1
  | .wsClose => wsOnClose st
  | .audioData t d => (audioDataCallback st t d).1
  | .play sid seg => (playSegment st sid seg).1
  | .stopPlay => stopPlayback st
  | .ended => onPlaybackEnded st

/-! ## Helper lemmas -/

theorem mathAbs_eq_abs (x : ℚ) : mathAbs x = |x| := by
  unfold mathAbs
  rcases lt_or_ge x 0 with h | h
  · rw [if_pos h, abs_of_neg h]
  · rw [if_neg (not_lt.mpr h), abs_of_nonneg h]

theorem mathMaxQ_eq_max (a b : ℚ) : mathMaxQ a b = max a b := by
  unfold mathMaxQ
  rcases lt_or_ge a b with h | h
  · rw [if_pos h, max_eq_right h.le]
  · rw [if_neg (not_lt.mpr h), max_eq_left h]

theorem foldl_maxAmp_scale (k : ℚ) (hk : 0 ≤ k) (l : List ℚ) :
    ∀ a : ℚ, (l.map (fun s => k * s)).foldl (fun m x => mathMaxQ m (mathAbs x)) (k * a) =
      k * l.foldl (fun m x => mathMaxQ m (mathAbs x)) a := by
  induction l with
  | nil => intro a; rfl
  | cons x xs ih =>
    intro a
    simp only [List.map_cons, List.foldl_cons]
    rw [← ih (mathMaxQ a (mathAbs x))]
    congr 1
    rw [mathAbs_eq_abs, mathAbs_eq_abs, mathMaxQ_eq_max, mathMaxQ_eq_max,
      abs_mul, abs_of_nonneg hk, mul_max_of_nonneg _ _ hk]

theorem maxAmplitude_scale (k : ℚ) (hk : 0 ≤ k) (l : List ℚ) :
    maxAmplitude (l.map (fun s => k * s)) = k * maxAmplitude l := by
  unfold maxAmplitude
  nth_rewrite 1 [← mul_zero k]
  exact foldl_maxAmp_scale k hk l 0

theorem sendMessage_active (st : AppState) (m : WebSocketMessage) :
    ((sendMessage st m).1).isRecordingSessionActive = st.isRecordingSessionActive := by
  unfold sendMessage refreshError
  split <;> rfl

theorem sendMessage_cur (st : AppState) (m : WebSocketMessage) :
    ((sendMessage st m).1).currentPlayingSegment = st.currentPlayingSegment := by
  unfold sendMessage refreshError
  split <;> rfl

theorem abortToIdle_active (st : AppState) :
    (abortToIdle st).1.isRecordingSessionActive = false := rfl

theorem abortToIdle_isRecording (st : AppState) :
    (abortToIdle st).1.isRecording = false := by
  unfold abortToIdle sendMessage refreshError
  dsimp only
  split
  · split <;> rfl
  · rfl

theorem handleMessage_active_mono (st : AppState) (m : WebSocketMessage)
    (h : (handleMessage st m).1.isRecordingSessionActive = true) :
    st.isRecordingSessionActive = true
    ∨ (m.type = "status" ∧ m.status = some "recording_started") := by
  unfold handleMessage at h
  split at h
  · split at h <;> exact Or.inl h
  · split at h
    · split at h <;> exact Or.inl h
    · split at h
      · dsimp only at h
        rcases he : m.error with _ | e
        · rw [he] at h
          exact Or.inl h
        · rw [he] at h
          dsimp only at h
          split at h
          · simp at h
          · exact Or.inl h
      · split at h
        · rename_i hna hns hne htype
          split at h
          · rename_i hst
            exact Or.inr ⟨htype, hst⟩
          · split at h
            · simp at h
            · exact Or.inl h
        · exact Or.inl h

/-! ## Concrete fixture states and messages -/

/-- `{ type: 'status', status: 'recording_stopped' }` as received from the
backend. -/
def statusStoppedMsg : WebSocketMessage :=
  { type := "status", status := some "recording_stopped" }

/-- `{ type: 'status', status: 'recording_started' }` as received from the
backend. -/
def statusStartedMsg : WebSocketMessage :=
  { type := "status", status := some "recording_started" }

/-- A state with the transport connected, the microphone armed and the
recording session active (as after a successful start sequence). -/
def stActive : AppState :=
  { initState with isConnected := true, ws := some WsReadyState.OPEN,
                   isRecording := true, processorLive := true,
                   audioContextLive := true, audioStreamLive := true,
                   isRecordingSessionActive := true }

/-- The example segment of the spec's start-transcribe scenario. -/
def segHello : TranscriptionSegment :=
  { text := "hello", speaker := "SPEAKER_1", start := 0, stop := 1,
    absolute_start := 0, absolute_end := 1 }

/-- A segment object holding `segHello` at address 0. -/
def segObjA : SegObj := (0, segHello)

/-- A connected state in which `segObjA` is the active playback target. -/
def stPlaying : AppState :=
  { initState with isConnected := true, ws := some WsReadyState.OPEN,
                   currentPlayingSegment := some segObjA }

/-! ## Claims -/

/-- C6: for every raw capture window whose maximum absolute sample
amplitude is below the 0.01 noise-gate threshold, `onaudioprocess` emits no
frame and appends none of the window's samples to the accumulation buffer:
`processWindow` returns the buffer unchanged and an empty frame list. -/
theorem c6_noise_gate (buffer input : List ℚ)
    (h : maxAmplitude input < MIN_AMPLITUDE) :
    processWindow buffer input = (buffer, []) := by
  unfold processWindow
  rw [if_neg (lt_asymm h)]

/-- Witness for C6 at a concrete silent window. -/
theorem c6_noise_gate_witness :
    maxAmplitude [1/1000, -1/200] < MIN_AMPLITUDE ∧
    processWindow [1/2] [1/1000, -1/200] = ([1/2], []) := by
  have h : maxAmplitude [(1:ℚ)/1000, -1/200] < MIN_AMPLITUDE := by
    norm_num [maxAmplitude, mathMaxQ, mathAbs, MIN_AMPLITUDE]
  exact ⟨h, c6_noise_gate [1/2] [1/1000, -1/200] h⟩

/-- C7: for every raw capture window above the noise-gate threshold and
every positive scale factor `k` for which the scaled window is also above
the threshold, processing the window with every sample multiplied by `k`
produces exactly the same result (same normalized samples appended, same
emitted frame contents) as processing the unscaled window. -/
theorem c7_scale_invariance (buffer input : List ℚ) (k : ℚ) (hk : 0 < k)
    (h1 : MIN_AMPLITUDE < maxAmplitude input)
    (h2 : MIN_AMPLITUDE < maxAmplitude (input.map (fun s => k * s))) :
    processWindow buffer (input.map (fun s => k * s)) =
      processWindow buffer input := by
  have hm0 : (0:ℚ) < maxAmplitude input :=
    lt_trans (by norm_num [MIN_AMPLITUDE]) h1
  have hms : maxAmplitude (input.map (fun s => k * s)) = k * maxAmplitude input :=
    maxAmplitude_scale k hk.le input
  have hm0s : (0:ℚ) < maxAmplitude (input.map (fun s => k * s)) := by
    rw [hms]
    exact mul_pos hk hm0
  have hnorm :
      (input.map (fun s => k * s)).map (fun s =>
        s * (if 0 < maxAmplitude (input.map (fun t => k * t)) then
              1 / maxAmplitude (input.map (fun t => k * t)) else 1)) =
      input.map (fun s =>
        s * (if 0 < maxAmplitude input then 1 / maxAmplitude input else 1)) := by
    rw [if_pos hm0s, if_pos hm0, hms, List.map_map]
    apply List.map_congr_left
    intro s _
    have hk0 : k ≠ 0 := ne_of_gt hk
    have hmne : maxAmplitude input ≠ 0 := ne_of_gt hm0
    simp only [Function.comp]
    field_simp
    ring
  unfold processWindow
  rw [if_pos h2, if_pos h1, hnorm]

/-- Witness for C7 at a concrete window and factor `k = 2`. -/
theorem c7_scale_invariance_witness :
    (0:ℚ) < 2 ∧ MIN_AMPLITUDE < maxAmplitude [1/2, -1/4] ∧
    MIN_AMPLITUDE < maxAmplitude (([1/2, -1/4] : List ℚ).map (fun s => 2 * s)) ∧
    processWindow [] (([1/2, -1/4] : List ℚ).map (fun s => 2 * s)) =
      processWindow [] [1/2, -1/4] := by
  have h1 : MIN_AMPLITUDE < maxAmplitude [(1:ℚ)/2, -1/4] := by
    norm_num [maxAmplitude, mathMaxQ, mathAbs, MIN_AMPLITUDE]
  have h2 : MIN_AMPLITUDE < maxAmplitude (([(1:ℚ)/2, -1/4]).map (fun s => 2 * s)) := by
    norm_num [maxAmplitude, mathMaxQ, mathAbs, MIN_AMPLITUDE]
  exact ⟨by norm_num, h1, h2,
    c7_scale_invariance [] [1/2, -1/4] 2 (by norm_num) h1 h2⟩

/-- C1: an audio frame delivered by the capture callback is forwarded as an
`audio_data` message only when the transport is connected, the microphone
is armed (`isRecording`) and `isRecordingSessionActive` holds; if any of
the three conditions fails the frame is dropped silently — the state
(including every error slot) is unchanged and nothing is sent. When all
three hold on an open socket, exactly the `audio_data` message is sent. -/
theorem c1_gating (st : AppState) (d : String) :
    (¬(st.isConnected = true ∧ st.isRecording = true ∧
        st.isRecordingSessionActive = true) →
      audioDataCallback st "chunk" d = (st, []))
    ∧ (∀ ty, (audioDataCallback st ty d).2 ≠ [] →
        st.isConnected = true ∧ st.isRecording = true ∧
        st.isRecordingSessionActive = true)
    ∧ (st.isConnected = true → st.isRecording = true →
        st.isRecordingSessionActive = true → st.ws = some WsReadyState.OPEN →
        audioDataCallback st "chunk" d =
          (st, [{ type := "audio_data", audio := some d }])) := by
  refine ⟨?_, ?_, ?_⟩
  · intro h
    unfold audioDataCallback
    rw [if_neg (by tauto)]
  · intro ty h
    by_cases hc : st.isConnected = true ∧ st.isRecording = true ∧
        st.isRecordingSessionActive = true ∧ ty = "chunk"
    · exact ⟨hc.1, hc.2.1, hc.2.2.1⟩
    · unfold audioDataCallback at h
      rw [if_neg hc] at h
      exact absurd rfl h
  · intro h1 h2 h3 hws
    unfold audioDataCallback
    rw [if_pos ⟨h1, h2, h3, rfl⟩]
    unfold sendMessage
    rw [if_pos hws]

/-- Witness for C1: in the freshly constructed state a frame is dropped
with no state change; in the fully active state it is sent. -/
theorem c1_gating_witness :
    audioDataCallback initState "chunk" "UExN" = (initState, []) ∧
    audioDataCallback stActive "chunk" "UExN" =
      (stActive, [{ type := "audio_data", audio := some "UExN" }]) :=
  ⟨(c1_gating initState "UExN").1 (by decide),
   (c1_gating stActive "UExN").2.2 rfl rfl rfl rfl⟩

/-- C5: an inbound `error` message carrying error text surfaces that text
in the single user-visible error slot, forces `isRecordingSessionActive`
to `false` exactly when the text contains the no-active-recording-session
indicator, leaves it (and all other state) unchanged otherwise, and sends
nothing. -/
theorem c5_error_handling (st : AppState) (t : String) (ht : t ≠ "") :
    handleMessage st { type := "error", error := some t } =
      ({ st with errorSlot := some t,
                 isRecordingSessionActive :=
                   if strIncludes t NO_SESSION_TEXT then false
                   else st.isRecordingSessionActive }, []) := by
  simp [handleMessage, ht]

/-- Witness for C5: an error containing the indicator clears the active
flag from `stActive`; an unrelated error leaves it set. -/
theorem c5_error_handling_witness :
    handleMessage stActive { type := "error", error := some "No active recording session" } =
      ({ stActive with errorSlot := some "No active recording session",
                       isRecordingSessionActive :=
                         if strIncludes "No active recording session" NO_SESSION_TEXT then false
                         else stActive.isRecordingSessionActive }, []) ∧
    handleMessage stActive { type := "error", error := some "decode failed" } =
      ({ stActive with errorSlot := some "decode failed",
                       isRecordingSessionActive :=
                         if strIncludes "decode failed" NO_SESSION_TEXT then false
                         else stActive.isRecordingSessionActive }, []) :=
  ⟨c5_error_handling stActive "No active recording session" (by decide),
   c5_error_handling stActive "decode failed" (by decide)⟩

/-- C9: an inbound `transcription` message carrying non-empty text and a
session id appends exactly one `TranscriptionWithSession` group tagged with
that session id (with the message's segments, or `[]` when absent) to the
history, changing nothing else and sending nothing; a `transcription`
message whose text or session id is missing (or empty) is dropped
silently — state unchanged, nothing sent, no error raised. -/
theorem c9_transcription_append (st : AppState) (m : WebSocketMessage)
    (hm : m.type = "transcription") :
    (∀ t sid, m.text = some t → t ≠ "" → m.session_id = some sid → sid ≠ "" →
      handleMessage st m =
        ({ st with transcriptions := st.transcriptions ++
            [{ text := t, segments := m.segments.getD [],
               session_id := sid }] }, []))
    ∧ ((truthy m.text && truthy m.session_id) = false →
        handleMessage st m = (st, [])) := by
  constructor
  · intro t sid hT hTne hS hSne
    have hcond : (truthy m.text && truthy m.session_id) = true := by
      rw [hT, hS]
      simp [truthy, hTne, hSne]
    unfold handleMessage
    rw [if_pos hm, if_pos hcond, hT, hS]
    rfl
  · intro hcond
    unfold handleMessage
    rw [if_pos hm, if_neg (by simp [hcond])]

/-- Witness for C9: the spec's scenario message appends exactly one group
tagged "s1"; a message with no text appends nothing. -/
theorem c9_transcription_append_witness :
    handleMessage initState
      { type := "transcription", text := some "hello", session_id := some "s1",
        segments := some [segHello] } =
      ({ initState with transcriptions := initState.transcriptions ++
          [{ text := "hello", segments := (some [segHello]).getD [],
             session_id := "s1" }] }, []) ∧
    handleMessage initState
      { type := "transcription", text := none, session_id := some "s1" } =
      (initState, []) :=
  ⟨(c9_transcription_append initState _ rfl).1 "hello" "s1" rfl (by decide)
      rfl (by decide),
   (c9_transcription_append initState _ rfl).2 (by decide)⟩

/-- C8: starting from any state in which a given segment object is not the
active playback target, requesting playback of that segment twice in
succession leaves playback stopped after the second call: the player is
paused with its position reset to 0, the active target is cleared, and the
second call sends no message at all. -/
theorem c8_double_play_stops (st : AppState) (sid : String) (seg : SegObj)
    (h : st.currentPlayingSegment ≠ some seg) :
    playSegment (playSegment st sid seg).1 sid seg =
      ({ (playSegment st sid seg).1 with playerPaused := true, playerTime := 0,
                                         currentPlayingSegment := none }, []) := by
  have hcur : (playSegment st sid seg).1.currentPlayingSegment = some seg := by
    unfold playSegment
    rw [if_neg h]
    exact sendMessage_cur _ _
  have key : ∀ s : AppState, s.currentPlayingSegment = some seg →
      playSegment s sid seg = (stopPlayback s, []) := by
    intro s hs
    unfold playSegment
    rw [if_pos hs]
  rw [key _ hcur]
  rfl

/-- Witness for C8 from the freshly constructed state. -/
theorem c8_double_play_stops_witness :
    playSegment (playSegment initState "s1" segObjA).1 "s1" segObjA =
      ({ (playSegment initState "s1" segObjA).1 with
          playerPaused := true, playerTime := 0,
          currentPlayingSegment := none }, []) :=
  c8_double_play_stops initState "s1" segObjA (by simp [initState])

/-- C10: the "already the active playback target" test in `playSegment` is
object identity: a segment object at a different address whose fields are
equal to the playing segment's does not cancel playback — it becomes the
new active target and a fresh `play_audio` request carrying its absolute
time range is sent. -/
theorem c10_identity_compare (st : AppState) (sid : String) (a1 a2 : Nat)
    (d : TranscriptionSegment) (hne : a1 ≠ a2)
    (hcur : st.currentPlayingSegment = some (a1, d))
    (hws : st.ws = some WsReadyState.OPEN) :
    playSegment st sid (a2, d) =
      ({ st with currentPlayingSegment := some (a2, d) },
       [{ type := "play_audio", session_id := some sid,
          start_time := some d.absolute_start,
          end_time := some d.absolute_end }]) := by
  have hneq : st.currentPlayingSegment ≠ some ((a2, d) : SegObj) := by
    rw [hcur]
    intro hEq
    exact hne (congrArg Prod.fst (Option.some.inj hEq))
  unfold playSegment
  rw [if_neg hneq]
  unfold sendMessage
  dsimp only
  rw [if_pos hws]

/-- Witness for C10: a copy of `segHello` at address 1 does not cancel the
playback of the identical-valued object at address 0. -/
theorem c10_identity_compare_witness :
    playSegment stPlaying "s1" (1, segHello) =
      ({ stPlaying with currentPlayingSegment := some (1, segHello) },
       [{ type := "play_audio", session_id := some "s1",
          start_time := some segHello.absolute_start,
          end_time := some segHello.absolute_end }]) :=
  c10_identity_compare stPlaying "s1" 0 1 segHello (by decide) rfl rfl

/-- C3 counterexample: from an Active state with the microphone armed, an
inbound `status{recording_stopped}` with no local stop call clears
`isRecordingSessionActive` but does NOT disarm the capture pipeline — the
recording flag and every capture resource stay live, refuting the claim
that the microphone and processing resources are released. -/
theorem c3_counterexample :
    (handleMessage stActive statusStoppedMsg).1.isRecordingSessionActive = false
    ∧ (handleMessage stActive statusStoppedMsg).1.isRecording = true
    ∧ (handleMessage stActive statusStoppedMsg).1.processorLive = true
    ∧ (handleMessage stActive statusStoppedMsg).1.audioContextLive = true
    ∧ (handleMessage stActive statusStoppedMsg).1.audioStreamLive = true := by
  decide

/-- C3 amended: in every state with an active session and an armed
microphone, inbound `status{recording_stopped}` transitions only the
session flag to false; the capture pipeline is left armed (all other state,
including `isRecording` and the capture resources, is unchanged) and
nothing is sent. Subsequent frames are dropped by the send gate instead. -/
theorem c3_amended (st : AppState) (h1 : st.isRecordingSessionActive = true)
    (h2 : st.isRecording = true) :
    handleMessage st statusStoppedMsg =
      ({ st with isRecordingSessionActive := false }, []) := by
  simp [handleMessage, statusStoppedMsg]

/-- Witness for C3 amended at the concrete Active state. -/
theorem c3_amended_witness :
    handleMessage stActive statusStoppedMsg =
      ({ stActive with isRecordingSessionActive := false }, []) :=
  c3_amended stActive rfl rfl

/-- C4 counterexample: from an Active, connected state, an explicit local
stop request sends exactly one message, and it is of type `status` (with
status field `stop_recording`) — no message of type `stop_recording` is
ever sent, refuting the claim as stated. -/
theorem c4_counterexample :
    (toggleRecording stActive true true).2 = [statusStopMsg]
    ∧ ((toggleRecording stActive true true).2.all
        (fun m => m.type != "stop_recording")) = true := by
  decide

/-- C4 amended: in every recording state (with the socket consistent with
the `isConnected` flag), an explicit local stop request disarms the capture
pipeline (processor, context and stream released, recording flag cleared),
clears `isRecordingSessionActive`, and — only while connected — sends the
single message `{ type: 'status', status: 'stop_recording' }`; while
disconnected nothing is sent. -/
theorem c4_amended (st : AppState) (c a : Bool) (h : st.isRecording = true)
    (hc : st.isConnected = true → st.ws = some WsReadyState.OPEN) :
    toggleRecording st c a =
      ({ (cleanup st) with isRecordingSessionActive := false },
       if st.isConnected then [statusStopMsg] else []) := by
  unfold toggleRecording
  rw [if_pos h]
  unfold abortToIdle
  by_cases hcon : st.isConnected = true
  · have hws : (cleanup st).ws = some WsReadyState.OPEN := hc hcon
    have hcon2 : (cleanup st).isConnected = true := hcon
    unfold sendMessage
    dsimp only
    rw [if_pos hcon2, if_pos hws, if_pos hcon]
  · have hcon2 : ¬ (cleanup st).isConnected = true := hcon
    dsimp only
    rw [if_neg hcon2, if_neg hcon]

/-- Witness for C4 amended at the concrete Active connected state. -/
theorem c4_amended_witness :
    toggleRecording stActive true true =
      ({ (cleanup stActive) with isRecordingSessionActive := false },
       if stActive.isConnected then [statusStopMsg] else []) :=
  c4_amended stActive true true rfl (fun _ => rfl)

/-- C2 counterexample: run the start sequence successfully from the initial
state, then let the channel close (`ws.onclose`). The resulting reachable
state has the connection Disconnected while `isRecordingSessionActive` is
still true — the close handler never resets the flag — refuting "never
true in any reachable state in which the connection is Disconnected". -/
theorem c2_counterexample :
    (wsOnClose (toggleRecording initState true true).1).isConnected = false
    ∧ (wsOnClose (toggleRecording initState true true).1).isRecordingSessionActive = true := by
  decide

/-- C2 amended: `isRecordingSessionActive` is false immediately after
construction and after any stop sequence run while recording; it becomes
true only through a start sequence whose arm succeeds (with the connection
established or establishable) or through an inbound
`status{recording_started}`; but the channel-close handler leaves the flag
exactly as it was, so it can remain true while the connection is
Disconnected. -/
theorem c2_amended :
    initState.isRecordingSessionActive = false
    ∧ (∀ st c a, st.isRecording = true →
        (toggleRecording st c a).1.isRecordingSessionActive = false)
    ∧ (∀ st, (wsOnClose st).isRecordingSessionActive =
        st.isRecordingSessionActive)
    ∧ (∀ st ev, (step st ev).isRecordingSessionActive = true →
        st.isRecordingSessionActive = true
        ∨ (∃ c a, ev = Event.toggle c a ∧ st.isRecording = false ∧ a = true
            ∧ (st.isConnected = true ∨ c = true))
        ∨ (∃ m, ev = Event.inbound m ∧ m.type = "status"
            ∧ m.status = some "recording_started")) := by
  refine ⟨rfl, ?_, fun st => rfl, ?_⟩
  · intro st c a h
    unfold toggleRecording
    rw [if_pos h]
    exact abortToIdle_active st
  · intro st ev h
    cases ev with
    | toggle c a =>
      unfold step toggleRecording at h
      dsimp only at h
      by_cases hr : st.isRecording = true
      · rw [if_pos hr] at h
        rw [abortToIdle_active st] at h
        exact absurd h (by decide)
      · rw [if_neg hr] at h
        unfold startSequence at h
        by_cases hcf : st.isConnected = false ∧ c = false
        · rw [if_pos hcf] at h
          rw [abortToIdle_active _] at h
          exact absurd h (by decide)
        · rw [if_neg hcf] at h
          dsimp only at h
          by_cases ha : a = true
          · refine Or.inr (Or.inl ⟨c, a, rfl, Bool.not_eq_true _ ▸ hr, ha, ?_⟩)
            by_cases hcn : st.isConnected = true
            · exact Or.inl hcn
            · rcases Bool.eq_false_or_eq_true c with hc | hc
              · exact Or.inr hc
              · exact absurd ⟨Bool.not_eq_true _ ▸ hcn, hc⟩ hcf
          · rw [if_neg ha] at h
            rw [abortToIdle_active _] at h
            exact absurd h (by decide)
    | inbound m =>
      unfold step at h
      rcases handleMessage_active_mono st m h with h1 | h2
      · exact Or.inl h1
      · exact Or.inr (Or.inr ⟨m, rfl, h2.1, h2.2⟩)
    | wsClose => exact Or.inl h
    | audioData t d =>
      unfold step at h
      rw [show ((audioDataCallback st t d).1).isRecordingSessionActive =
          st.isRecordingSessionActive from ?_] at h
      · exact Or.inl h
      · unfold audioDataCallback
        split
        · exact sendMessage_active st _
        · rfl
    | play sid seg =>
      unfold step at h
      rw [show ((playSegment st sid seg).1).isRecordingSessionActive =
          st.isRecordingSessionActive from ?_] at h
      · exact Or.inl h
      · unfold playSegment
        split
        · rfl
        · exact sendMessage_active _ _
    | stopPlay => exact Or.inl h
    | ended => exact Or.inl h

/-- Witness for C2 amended: the stop branch clears the flag from the
concrete Active state, and the inbound `status{recording_started}` event is
the source of the flag in a concrete step. -/
theorem c2_amended_witness :
    (toggleRecording stActive true true).1.isRecordingSessionActive = false
    ∧ (initState.isRecordingSessionActive = true
        ∨ (∃ c a, Event.inbound statusStartedMsg = Event.toggle c a
            ∧ initState.isRecording = false ∧ a = true
            ∧ (initState.isConnected = true ∨ c = true))
        ∨ (∃ m, Event.inbound statusStartedMsg = Event.inbound m
            ∧ m.type = "status" ∧ m.status = some "recording_started")) :=
  ⟨c2_amended.2.1 stActive true true rfl,
   c2_amended.2.2.2 initState (Event.inbound statusStartedMsg) (by decide)⟩
